import Mathlib

/-! Potions API: authentication routes and potion routes.

A shallow embedding of `auth.routes.js`, `router.js` and `potion.model.js`.

* Request handlers are pure functions from the request, the store state and the
  outcome of the environment (injected store failures, generated identifiers,
  the clock) to a response and the next store state.
* The third-party libraries the handlers call (express-validator / validator.js,
  mongoose, jsonwebtoken) are modelled by their documented behaviour, restricted
  to what the handlers use.
* Text is a Lean `String`, a sequence of code points. `isLength` of validator.js
  counts a surrogate pair once and does not count the variation selectors
  U+FE0E and U+FE0F: `Validator.len` is that measure.
* A number is held by its exact value in `ℚ`. No arithmetic on numbers is
  modelled: what the store computes in an aggregation is an input of the model.
-/

set_option autoImplicit false

/-! ## validator.js sanitizers and validators -/

namespace Validator

/-- The characters matched by the JavaScript regular expression class `\s`,
which `trim` of validator.js strips when no character set is given. -/
def isJsSpace (c : Char) : Bool :=
  let n := c.toNat
  n == 9 || n == 10 || n == 11 || n == 12 || n == 13 || n == 32 || n == 160 ||
  n == 5760 || (8192 ≤ n && n ≤ 8202) || n == 8232 || n == 8233 || n == 8239 ||
  n == 8287 || n == 12288 || n == 65279

/-- The sanitizer `trim()`: strips whitespace on both ends. -/
def trim (s : String) : String :=
  String.mk ((s.data.dropWhile isJsSpace).reverse.dropWhile isJsSpace).reverse

/-- The replacement `escape` of validator.js makes for one character:
`&`, `"`, the single quote, `<`, `>`, `/`, the backslash and the grave accent
become HTML entities; every other character is kept. -/
def escapeChar (c : Char) : List Char :=
  let n := c.toNat
  if n = 38 then "&amp;".data
  else if n = 34 then "&quot;".data
  else if n = 39 then "&#x27;".data
  else if n = 60 then "&lt;".data
  else if n = 62 then "&gt;".data
  else if n = 47 then "&#x2F;".data
  else if n = 92 then "&#x5C;".data
  else if n = 96 then "&#96;".data
  else [c]

/-- The sanitizer `escape()`. The source replaces `&` first and the other
characters afterwards, none of which is `&`, so the chain of replacements is a
character-wise substitution. -/
def escape (s : String) : String :=
  String.mk (s.data.map escapeChar).flatten

/-- The validator `isEmpty` (without `ignore_whitespace`): length zero. -/
def isEmpty (s : String) : Bool := s.length == 0

/-- The variation selectors U+FE0E and U+FE0F, which `isLength` leaves out of
its count (`presentationSequences` in the source of validator.js). -/
def isVariationSelector (c : Char) : Bool := c.toNat == 65038 || c.toNat == 65039

/-- The length `isLength` measures: `str.length` less the variation selectors
and less one per surrogate pair, that is the number of code points that are not
variation selectors. -/
def len (s : String) : Nat := s.length - s.data.countP isVariationSelector

/-- The validator `isLength({ min, max })`; `max` may be left out. -/
def isLength (s : String) (min : Nat) (max : Option Nat) : Bool :=
  let len := len s
  decide (min ≤ len) &&
    (match max with
     | none => true
     | some m => decide (len ≤ m))

end Validator

/-! ## express-validator chains -/

namespace ExpressValidator

/-- One entry of `validationResult(req).array()`, by the three properties the
API documents: the message, the field name and the request location. -/
structure FieldError where
  msg : String
  param : String
  location : String
deriving DecidableEq, Repr

/-- One link of a validation chain `body(field).a().b()...`. Sanitizers rewrite
the value; a validator carries the message given by `withMessage`. -/
inductive Step where
  | trim
  | escape
  | notEmpty (msg : String)
  | isLength (min : Nat) (max : Option Nat) (msg : String)
deriving Repr

/-- Runs the links of a chain in order on the value of a body field. A chain
has no `bail()`: every validator runs, and each failing validator appends its
own entry. The result is the sanitized value and the entries. -/
def runChain (param : String) : List Step → String → String × List FieldError
  | [], v => (v, [])
  | Step.trim :: rest, v => runChain param rest (Validator.trim v)
  | Step.escape :: rest, v => runChain param rest (Validator.escape v)
  | Step.notEmpty msg :: rest, v =>
      let r := runChain param rest v
      if Validator.isEmpty v then (r.1, ⟨msg, param, "body"⟩ :: r.2) else r
  | Step.isLength min max msg :: rest, v =>
      let r := runChain param rest v
      if Validator.isLength v min max then r else (r.1, ⟨msg, param, "body"⟩ :: r.2)

/-- The text a validator sees for a body field: an absent field reads as the
empty text. -/
def toText (v : Option String) : String := v.getD ""

end ExpressValidator

/-! ## Store failures -/

/-- A failure raised by a store call: the error `code` of the driver, when it
has one, and its `message`. -/
structure StoreError where
  code : Option Nat
  message : String
deriving DecidableEq, Repr

/-! ## Authentication routes (auth.routes.js) -/

namespace Auth

open ExpressValidator

/-- The JSON body `{ name, password }` of a register or login request; a field
may be absent. -/
structure Credentials where
  name : Option String
  password : Option String
deriving DecidableEq, Repr

/-- A user record of the credential store. -/
structure User where
  _id : Nat
  name : String
  password : String
deriving DecidableEq, Repr

/-- The password hasher used by the user model. -/
structure Hasher where
  hash : String → String
  compare : String → String → Bool

/-- A hasher verifies every password against its own hash. -/
def Hasher.Sound (H : Hasher) : Prop := ∀ p : String, H.compare p (H.hash p) = true

/-- Modelled from the spec: user.model.js is not among the sources. `save`
persists a new user with the name as given and the hash of the password; the
store enforces uniqueness of `name` (and of `_id`), a violation raising the
duplicate-key error 11000 and leaving the store as it was. `fault` is a failure
of the store call itself. -/
def User.save (H : Hasher) (fault : Option StoreError) (newId : Nat) (store : List User)
    (name password : String) : Except StoreError (List User) :=
  match fault with
  | some e => Except.error e
  | none =>
    if store.any (fun u => u.name == name || u._id == newId) then
      Except.error ⟨some 11000, "E11000 duplicate key error"⟩
    else
      Except.ok (store ++ [⟨newId, name, H.hash password⟩])

/-- Modelled from the spec: user.model.js is not among the sources.
`User.findOne({ name })` looks a user up by exact name. -/
def User.findOne (fault : Option StoreError) (store : List User) (name : String) :
    Except StoreError (Option User) :=
  match fault with
  | some e => Except.error e
  | none => Except.ok (store.find? (fun u => u.name == name))

/-- Modelled from the spec: user.model.js is not among the sources.
`user.comparePassword(candidate)` compares the submitted password with the
stored hash. -/
def User.comparePassword (H : Hasher) (fault : Option StoreError) (user : User)
    (candidate : String) : Except StoreError Bool :=
  match fault with
  | some e => Except.error e
  | none => Except.ok (H.compare candidate user.password)

/-- The constant `JWT_SECRET`: `process.env.JWT_SECRET || 'dev_secret'`. -/
def JWT_SECRET (envSecret : Option String) : String :=
  match envSecret with
  | none => "dev_secret"
  | some s => if s = "" then "dev_secret" else s

/-- The constant `COOKIE_NAME`. -/
def COOKIE_NAME : String := "demo_node+mongo_token"

/-- The unit suffixes of a time span and their length in milliseconds. -/
def unitMs (u : String) : Option Nat :=
  if u = "" ∨ u = "ms" then some 1
  else if u = "s" then some 1000
  else if u = "m" then some (60 * 1000)
  else if u = "h" then some (60 * 60 * 1000)
  else if u = "d" then some (24 * 60 * 60 * 1000)
  else if u = "w" then some (7 * 24 * 60 * 60 * 1000)
  else none

/-- The time-span reader behind `expiresIn`: a decimal count followed by a unit
suffix, in milliseconds. -/
def ms (span : String) : Option Nat :=
  let digits := span.data.takeWhile Char.isDigit
  let suffix := String.mk (span.data.dropWhile Char.isDigit)
  if digits = [] then none
  else (unitMs suffix).map
    (fun u => digits.foldl (fun acc c => 10 * acc + (c.toNat - 48)) 0 * u)

/-- A signed session token: the payload `{ id, name }`, the signing key, and the
issue and expiry times in seconds. -/
structure Token where
  id : Nat
  name : String
  key : String
  iat : Nat
  exp : Option Nat
deriving DecidableEq, Repr

/-- The call `jwt.sign({ id, name }, secret, { expiresIn })` at time `now`
(seconds): the expiry is the issue time plus the span in whole seconds. -/
def jwtSign (id : Nat) (name : String) (secret : String) (expiresIn : String) (now : Nat) :
    Token :=
  ⟨id, name, secret, now, (ms expiresIn).map (fun span => now + span / 1000)⟩

/-- A cookie set by `res.cookie(name, value, options)`. -/
structure Cookie where
  name : String
  value : Token
  httpOnly : Bool
  sameSite : String
  secure : Bool
  maxAge : Nat
deriving DecidableEq, Repr

/-- The JSON bodies the authentication routes answer with. -/
inductive Body where
  | message (m : String)
  | error (e : String)
  | errors (es : List FieldError)
deriving DecidableEq, Repr

/-- A response: the status, the JSON body, the cookies set and the names of the
cookies cleared. -/
structure Response where
  status : Nat
  body : Body
  cookies : List Cookie
  cleared : List String
deriving DecidableEq, Repr

/-- What a handler run ends in: a response, or a rejection that no handler code
catches. -/
inductive Outcome where
  | responded (r : Response)
  | unhandled (e : StoreError)
deriving DecidableEq, Repr

/-- The chain `body('name')` of `/register`. -/
def registerNameChain : List Step :=
  [Step.notEmpty "Le nom d’utilisateur est requis.",
   Step.isLength 3 (some 30) "Doit faire entre 3 et 30 caractères."]

/-- The chain `body('password')`, shared by `/register` and `/login`. -/
def passwordChain : List Step :=
  [Step.trim, Step.escape,
   Step.notEmpty "Le mot de passe est requis.",
   Step.isLength 6 none "Minimum 6 caractères."]

/-- The chain `body('name')` of `/login`. -/
def loginNameChain : List Step :=
  [Step.trim, Step.escape,
   Step.notEmpty "Le nom d’utilisateur est requis.",
   Step.isLength 3 (some 30) "Doit faire entre 3 et 30 caractères."]

/-- The entries of `validationResult(req).array()` for `/register`. -/
def registerErrors (body : Credentials) : List FieldError :=
  (runChain "name" registerNameChain (toText body.name)).2 ++
  (runChain "password" passwordChain (toText body.password)).2

/-- The entries of `validationResult(req).array()` for `/login`. -/
def loginErrors (body : Credentials) : List FieldError :=
  (runChain "name" loginNameChain (toText body.name)).2 ++
  (runChain "password" passwordChain (toText body.password)).2

/-- The handler of `POST /auth/register`. `newId` is the identifier generated for
the new record and `fault` a failure of `user.save()`. -/
def register (H : Hasher) (fault : Option StoreError) (newId : Nat) (store : List User)
    (body : Credentials) : Response × List User :=
  let errors := registerErrors body
  if !errors.isEmpty then (⟨400, Body.errors errors, [], []⟩, store)
  else
    let name := (runChain "name" registerNameChain (toText body.name)).1
    let password := (runChain "password" passwordChain (toText body.password)).1
    match User.save H fault newId store name password with
    | Except.ok store1 => (⟨201, Body.message "Utilisateur créé", [], []⟩, store1)
    | Except.error err =>
      if err.code = some 11000 then (⟨500, Body.error "Erreur système", [], []⟩, store)
      else (⟨400, Body.error err.message, [], []⟩, store)

/-- The failures the environment injects into the two awaited calls of
`/login`, the signing key of the deployment and the clock. -/
structure LoginEnv where
  findFault : Option StoreError
  compareFault : Option StoreError
  envSecret : Option String
  now : Nat

/-- The handler of `POST /auth/login`. The two awaited calls stand outside any
`try`: a rejection of either ends the run without a response. -/
def login (H : Hasher) (env : LoginEnv) (store : List User) (body : Credentials) : Outcome :=
  let errors := loginErrors body
  if !errors.isEmpty then Outcome.responded ⟨400, Body.errors errors, [], []⟩
  else
    let name := (runChain "name" loginNameChain (toText body.name)).1
    let password := (runChain "password" passwordChain (toText body.password)).1
    match User.findOne env.findFault store name with
    | Except.error e => Outcome.unhandled e
    | Except.ok none => Outcome.responded ⟨401, Body.error "Identifiants invalides", [], []⟩
    | Except.ok (some user) =>
      match User.comparePassword H env.compareFault user password with
      | Except.error e => Outcome.unhandled e
      | Except.ok false =>
        Outcome.responded ⟨401, Body.error "Identifiants invalides", [], []⟩
      | Except.ok true =>
        let token := jwtSign user._id user.name (JWT_SECRET env.envSecret) "1d" env.now
        Outcome.responded ⟨200, Body.message "Connecté avec succès",
          [⟨COOKIE_NAME, token, true, "strict", false, 24 * 60 * 60 * 1000⟩], []⟩

/-- The handler of `GET /auth/logout`. -/
def logout : Response :=
  ⟨200, Body.message "Déconnecté", [], [COOKIE_NAME]⟩

/-- The entries a `notEmpty().isLength(min, max)` pair yields for a value. -/
def pairEntries (param : String) (v : String) (min : Nat) (max : Option Nat)
    (msgEmpty msgLength : String) : List FieldError :=
  (if Validator.isEmpty v then [⟨msgEmpty, param, "body"⟩] else []) ++
  (if Validator.isLength v min max then [] else [⟨msgLength, param, "body"⟩])

/-- The number of fields among name and password that violate their constraint,
for the values the validators see and the length `isLength` measures: a name of
length 3 to 30, a password of length at least 6. -/
def failingFields (name password : String) : Nat :=
  (if 3 ≤ Validator.len name ∧ Validator.len name ≤ 30 then 0 else 1) +
  (if 6 ≤ Validator.len password then 0 else 1)

/-- The number of fields among name and password whose value is empty. -/
def emptyFields (name password : String) : Nat :=
  (if name.length = 0 then 1 else 0) + (if password.length = 0 then 1 else 0)

/-- The text made of the single quote alone (U+0027). -/
def quote : String := String.singleton (Char.ofNat 39)

/-- The text made of the variation selector U+FE0F alone. -/
def selector : String := String.singleton (Char.ofNat 65039)

/-- A hasher for examples: the hash tags the password, and comparison hashes the
candidate again. -/
def demoHasher : Hasher :=
  ⟨fun p => "hash:" ++ p, fun p h => h == "hash:" ++ p⟩

end Auth

/-! ## Potion model (potion.model.js) -/

namespace Potions

/-- An `ObjectId`: the twelve bytes read as a number. -/
abbrev ObjectId := Nat

/-- The value of a hexadecimal digit, in either case. -/
def hexValue (c : Char) : Option Nat :=
  let n := c.toNat
  if 48 ≤ n ∧ n ≤ 57 then some (n - 48)
  else if 97 ≤ n ∧ n ≤ 102 then some (n - 87)
  else if 65 ≤ n ∧ n ≤ 70 then some (n - 55)
  else none

/-- Reads a run of hexadecimal digits onto an accumulator. -/
def readHex : List Char → Nat → Option Nat
  | [], acc => some acc
  | c :: cs, acc =>
    match hexValue c with
    | none => none
    | some d => readHex cs (16 * acc + d)

/-- The cast mongoose applies to an identifier given as text: the text of 24
hexadecimal digits denotes an `ObjectId`; the cast of any other text fails
(`CastError`). -/
def castObjectId (s : String) : Option ObjectId :=
  if s.length = 24 then readHex s.data 0 else none

/-- What a request body holds for one schema path: nothing, a value the schema
type cannot cast, or a value of the schema type. (JSON `null` is modelled for
`score` alone, where it is a value to store.) -/
inductive Field (α : Type) where
  | absent
  | uncastable
  | value (a : α)
deriving DecidableEq, Repr

/-- The nested object `effets` as a request body gives it. -/
structure EffetsInput where
  strength : Field ℚ
  flavor : Field ℚ
deriving DecidableEq, Repr

/-- The fields of `potionSchema` as a request body gives them. `ingredients` is
an array of `Mixed`, which accepts any value; an ingredient is kept as its JSON
text. A `score` given is a number or `null` (`none`). -/
structure PotionInput where
  nom : Field String
  ingredients : Option (List String)
  effets : Field EffetsInput
  categories : Field (List String)
  prix : Field ℚ
  score : Field (Option ℚ)
  marchand_id : Field String
deriving DecidableEq, Repr

/-- The nested object `effets` of a stored potion: both sub-fields are required
numbers. -/
structure Effets where
  strength : ℚ
  flavor : ℚ
deriving DecidableEq, Repr

/-- A stored potion document, by `potionSchema`. A number is held by its exact
value. `score` is not required: it holds a number or `null` (`none`), the
default 0 applying only when the field is absent at creation. -/
structure Potion where
  _id : ObjectId
  nom : String
  ingredients : List String
  effets : Effets
  categories : List String
  prix : ℚ
  score : Option ℚ
  marchand_id : ObjectId
deriving DecidableEq, Repr

/-- A path declared `required: true`: an absent value fails the `required`
validator and an uncastable one the cast. -/
def required {α : Type} (path : String) : Field α → Except String α
  | Field.absent => Except.error ("Path " ++ path ++ " is required.")
  | Field.uncastable => Except.error ("Cast failed at path " ++ path)
  | Field.value a => Except.ok a

/-- A path without `required`: only the cast can fail. -/
def optional {α : Type} (path : String) : Field α → Except String (Option α)
  | Field.absent => Except.ok none
  | Field.uncastable => Except.error ("Cast failed at path " ++ path)
  | Field.value a => Except.ok (some a)

/-- A required `String` path: the empty text fails `required` as well. -/
def requiredText (path : String) (f : Field String) : Except String String :=
  match required path f with
  | Except.error e => Except.error e
  | Except.ok s => if s = "" then Except.error ("Path " ++ path ++ " is required.") else Except.ok s

/-- A path of type `ObjectId`, given as text. -/
def castId (path : String) (s : String) : Except String ObjectId :=
  match castObjectId s with
  | none => Except.error ("Cast to ObjectId failed at path " ++ path)
  | some oid => Except.ok oid

/-- The document `new Potion({ nom, ingredients, effets, categories, prix, score,
marchand_id })` once validated against `potionSchema`: `nom`, `effets.strength`,
`effets.flavor`, `prix` and `marchand_id` are required, an absent `score`
defaults to 0, the arrays default to empty. The error names the first failing
path. -/
def validateNew (newId : ObjectId) (body : PotionInput) : Except String Potion := do
  let nom ← requiredText "nom" body.nom
  let effets ←
    match body.effets with
    | Field.absent => Except.error "Path effets.strength is required."
    | Field.uncastable => Except.error "Cast failed at path effets"
    | Field.value e => do
      let strength ← required "effets.strength" e.strength
      let flavor ← required "effets.flavor" e.flavor
      pure (Effets.mk strength flavor)
  let categories ← optional "categories" body.categories
  let prix ← required "prix" body.prix
  let score ← optional "score" body.score
  let marchandText ← required "marchand_id" body.marchand_id
  let marchand ← castId "marchand_id" marchandText
  pure ⟨newId, nom, body.ingredients.getD [], effets, categories.getD [], prix,
    score.getD (some 0), marchand⟩

/-- The call `newPotion.save()`: validation first, then the insertion, which the
store call can fail (`fault`) and which the unique index on `_id` guards. A
failed save leaves the store as it was. -/
def Potion.save (fault : Option StoreError) (newId : ObjectId) (store : List Potion)
    (body : PotionInput) : Except StoreError (Potion × List Potion) :=
  match validateNew newId body with
  | Except.error e => Except.error ⟨none, "Potion validation failed: " ++ e⟩
  | Except.ok p =>
    match fault with
    | some e => Except.error e
    | none =>
      if store.any (fun q => q._id == newId) then
        Except.error ⟨some 11000, "E11000 duplicate key error"⟩
      else Except.ok (p, store ++ [p])

/-- The casted update document (`$set`) of a request body: the paths given,
each with its casted value. -/
structure Update where
  nom : Option String
  ingredients : Option (List String)
  effets : Option Effets
  categories : Option (List String)
  prix : Option ℚ
  score : Option (Option ℚ)
  marchand_id : Option ObjectId
deriving DecidableEq, Repr

/-- The cast of an update body and the update validators (`runValidators:
true`), which both run before the store is queried: every path given must cast,
a given `nom` must not be empty, and a given object `effets` must hold both of
its required sub-fields. -/
def castUpdate (body : PotionInput) : Except String Update := do
  let nom ← optional "nom" body.nom
  let nom ←
    match nom with
    | some s => if s = "" then Except.error "Path nom is required." else pure (some s)
    | none => pure none
  let effets ←
    match body.effets with
    | Field.absent => pure none
    | Field.uncastable => Except.error "Cast failed at path effets"
    | Field.value e => do
      let strength ← required "effets.strength" e.strength
      let flavor ← required "effets.flavor" e.flavor
      pure (some (Effets.mk strength flavor))
  let categories ← optional "categories" body.categories
  let prix ← optional "prix" body.prix
  let score ← optional "score" body.score
  let marchandText ← optional "marchand_id" body.marchand_id
  let marchand ←
    match marchandText with
    | some s => (castId "marchand_id" s).map some
    | none => pure none
  pure ⟨nom, body.ingredients, effets, categories, prix, score, marchand⟩

/-- The effect of `$set` on a stored document: the paths given replace the
stored values, `_id` stays. -/
def applyUpdate (u : Update) (p : Potion) : Potion :=
  ⟨p._id, u.nom.getD p.nom, u.ingredients.getD p.ingredients, u.effets.getD p.effets,
    u.categories.getD p.categories, u.prix.getD p.prix, u.score.getD p.score,
    u.marchand_id.getD p.marchand_id⟩

/-- Replaces the first document carrying the identifier. -/
def replaceFirst (oid : ObjectId) (p1 : Potion) : List Potion → List Potion
  | [] => []
  | q :: qs => if q._id == oid then p1 :: qs else q :: replaceFirst oid p1 qs

/-- The call `Potion.findByIdAndUpdate(id, body, { new: true, runValidators:
true })`: the identifier and the body are cast and validated, then the first
document with that `_id` is updated and returned; without such a document the
result is `null` and the store is left as it was (no upsert). -/
def Potion.findByIdAndUpdate (fault : Option StoreError) (store : List Potion) (id : String)
    (body : PotionInput) : Except StoreError (Option Potion × List Potion) :=
  match castObjectId id with
  | none => Except.error ⟨none, "Cast to ObjectId failed at path _id"⟩
  | some oid =>
    match castUpdate body with
    | Except.error e => Except.error ⟨none, "Validation failed: " ++ e⟩
    | Except.ok u =>
      match fault with
      | some e => Except.error e
      | none =>
        match store.find? (fun q => q._id == oid) with
        | none => Except.ok (none, store)
        | some p => Except.ok (some (applyUpdate u p), replaceFirst oid (applyUpdate u p) store)

/-- The call `Potion.findByIdAndDelete(id)`: removes and returns the first
document with that `_id`, or returns `null`. -/
def Potion.findByIdAndDelete (fault : Option StoreError) (store : List Potion) (id : String) :
    Except StoreError (Option Potion × List Potion) :=
  match castObjectId id with
  | none => Except.error ⟨none, "Cast to ObjectId failed at path _id"⟩
  | some oid =>
    match fault with
    | some e => Except.error e
    | none =>
      match store.find? (fun q => q._id == oid) with
      | none => Except.ok (none, store)
      | some p => Except.ok (some p, store.eraseP (fun q => q._id == oid))

/-- The call `Potion.countDocuments()`. -/
def Potion.countDocuments (fault : Option StoreError) (store : List Potion) :
    Except StoreError Nat :=
  match fault with
  | some e => Except.error e
  | none => Except.ok store.length

/-- The call `Potion.find(filter)`: the documents the filter selects, in
collection order. -/
def Potion.find (fault : Option StoreError) (store : List Potion) (filter : Potion → Bool) :
    Except StoreError (List Potion) :=
  match fault with
  | some e => Except.error e
  | none => Except.ok (store.filter filter)

/-- The call `Potion.distinct('categories')`: the distinct elements of the
arrays `categories` of all documents. The store leaves their order open; the
model lists them as `dedup` does. -/
def Potion.distinct (fault : Option StoreError) (store : List Potion) :
    Except StoreError (List String) :=
  match fault with
  | some e => Except.error e
  | none => Except.ok (store.map (fun p => p.categories)).flatten.dedup

/-- An output document of a `$group` stage with one accumulator: the key `_id`
of the group and the accumulated value (`averageScore` or `totalPrice`), a
number or `null` (`none`). -/
structure GroupDoc (κ : Type) where
  _id : κ
  value : Option ℚ
deriving DecidableEq, Repr

/-- The call `Potion.aggregate([{ $group: ... }])`. The store evaluates the
pipeline, in its own number arithmetic and in an order of its choosing; the
documents it returns are an input of the model (`result`), and the call can
fail. -/
def Potion.aggregate {κ : Type} (fault : Option StoreError) (result : List (GroupDoc κ)) :
    Except StoreError (List (GroupDoc κ)) :=
  match fault with
  | some e => Except.error e
  | none => Except.ok result

/-! ## Potion routes (router.js) -/

/-- The JSON bodies the potion routes answer with. -/
inductive Body where
  | message (m : String)
  | error (e : String)
  | messagePotion (m : String) (potion : Potion)
  | number (n : ℚ)
  | null
  | strings (l : List String)
  | potions (l : List Potion)
  | scores (l : List (GroupDoc ObjectId))
deriving DecidableEq, Repr

/-- A response of the potion router. -/
structure Response where
  status : Nat
  body : Body
deriving DecidableEq, Repr

/-- The handler of `POST /potions`. -/
def postPotion (fault : Option StoreError) (newId : ObjectId) (store : List Potion)
    (body : PotionInput) : Response × List Potion :=
  match Potion.save fault newId store body with
  | Except.ok (newPotion, store1) =>
    (⟨201, Body.messagePotion "Potion créée avec succès" newPotion⟩, store1)
  | Except.error err => (⟨400, Body.error err.message⟩, store)

/-- The handler of `PUT /potions/:id`. -/
def putPotion (fault : Option StoreError) (store : List Potion) (id : String)
    (body : PotionInput) : Response × List Potion :=
  match Potion.findByIdAndUpdate fault store id body with
  | Except.ok (none, store1) => (⟨404, Body.error "Potion non trouvée"⟩, store1)
  | Except.ok (some updatedPotion, store1) =>
    (⟨200, Body.messagePotion "Potion mise à jour avec succès" updatedPotion⟩, store1)
  | Except.error err => (⟨400, Body.error err.message⟩, store)

/-- The handler of `DELETE /potions/:id`. -/
def deletePotion (fault : Option StoreError) (store : List Potion) (id : String) :
    Response × List Potion :=
  match Potion.findByIdAndDelete fault store id with
  | Except.ok (none, store1) => (⟨404, Body.error "Potion non trouvée"⟩, store1)
  | Except.ok (some _, store1) => (⟨200, Body.message "Potion supprimée avec succès"⟩, store1)
  | Except.error err => (⟨500, Body.error err.message⟩, store)

/-- The handler of `GET /potions/analytics/total-potions`. -/
def totalPotions (fault : Option StoreError) (store : List Potion) : Response :=
  match Potion.countDocuments fault store with
  | Except.ok totalPotions => ⟨200, Body.number totalPotions⟩
  | Except.error err => ⟨500, Body.error err.message⟩

/-- The handler of `GET /potions/names`. -/
def names (fault : Option StoreError) (store : List Potion) : Response :=
  match Potion.find fault store (fun _ => true) with
  | Except.ok names => ⟨200, Body.strings (names.map (fun p => p.nom))⟩
  | Except.error err => ⟨500, Body.error err.message⟩

/-- The handler of `GET /potions/vendor/:vendorId`. The filter value is cast to
`ObjectId` before the query; a failed cast rejects. -/
def byVendor (fault : Option StoreError) (store : List Potion) (vendorId : String) : Response :=
  match castObjectId vendorId with
  | none => ⟨500, Body.error "Cast to ObjectId failed at path marchand_id"⟩
  | some oid =>
    match Potion.find fault store (fun p => p.marchand_id == oid) with
    | Except.ok marchand_potions => ⟨200, Body.potions marchand_potions⟩
    | Except.error err => ⟨500, Body.error err.message⟩

/-- The handler of `GET /potions`. -/
def allPotions (fault : Option StoreError) (store : List Potion) : Response :=
  match Potion.find fault store (fun _ => true) with
  | Except.ok potions => ⟨200, Body.potions potions⟩
  | Except.error err => ⟨500, Body.error err.message⟩

/-- The body `res.json(value)` for a number or `null`. -/
def jsonNumber : Option ℚ → Body
  | some n => Body.number n
  | none => Body.null

/-- The handler of `GET /potions/analytics/average-score`; `result` is what the
store returns for the pipeline `{ $group: { _id: null, averageScore: { $avg:
"$score" } } }`. The handler reads `averageScore[0].averageScore`; on an empty
result element 0 is `undefined`, the property read throws a `TypeError` inside
the `try`, and the `catch` answers 500 with its message. -/
def averageScore (fault : Option StoreError) (result : List (GroupDoc Unit)) : Response :=
  match Potion.aggregate fault result with
  | Except.error err => ⟨500, Body.error err.message⟩
  | Except.ok averageScore =>
    match averageScore.head? with
    | none => ⟨500, Body.error "Cannot read properties of undefined (reading averageScore)"⟩
    | some first => ⟨200, jsonNumber first.value⟩

/-- The handler of `GET /potions/analytics/total-price`, which reads
`totalPrice[0].totalPrice` in the same way; `result` is what the store returns
for `{ $group: { _id: null, totalPrice: { $sum: "$prix" } } }`. -/
def totalPrice (fault : Option StoreError) (result : List (GroupDoc Unit)) : Response :=
  match Potion.aggregate fault result with
  | Except.error err => ⟨500, Body.error err.message⟩
  | Except.ok totalPrice =>
    match totalPrice.head? with
    | none => ⟨500, Body.error "Cannot read properties of undefined (reading totalPrice)"⟩
    | some first => ⟨200, jsonNumber first.value⟩

/-- The handler of `GET /potions/analytics/distinct-categories`. -/
def distinctCategories (fault : Option StoreError) (store : List Potion) : Response :=
  match Potion.distinct fault store with
  | Except.ok categories => ⟨200, Body.strings categories⟩
  | Except.error err => ⟨500, Body.error err.message⟩

/-- The handler of `GET /potions/analytics/average-score-by-vendor`; `result` is
what the store returns for `{ $group: { _id: "$marchand_id", averageScore: {
$avg: "$score" } } }`. -/
def averageScoreByVendor (fault : Option StoreError) (result : List (GroupDoc ObjectId)) :
    Response :=
  match Potion.aggregate fault result with
  | Except.ok scores => ⟨200, Body.scores scores⟩
  | Except.error err => ⟨500, Body.error err.message⟩

/-- A potion for examples, by its identifier, vendor and score. -/
def demoPotion (id vendor : ObjectId) (score : ℚ) : Potion :=
  ⟨id, "Potion de soin", [], ⟨10, 5⟩, [], 50, some score, vendor⟩

/-- A write request to the potion router, with what the environment decides for
it: the failure of its store call, if any, and for a create the identifier
generated for the new document. -/
inductive Request where
  | post (fault : Option StoreError) (newId : ObjectId) (body : PotionInput)
  | put (fault : Option StoreError) (id : String) (body : PotionInput)
  | delete (fault : Option StoreError) (id : String)
deriving Repr

/-- Serves one request. -/
def serve (store : List Potion) : Request → Response × List Potion
  | Request.post fault newId body => postPotion fault newId store body
  | Request.put fault id body => putPotion fault store id body
  | Request.delete fault id => deletePotion fault store id

/-- Serves requests one after the other; the result is the final store and the
log of each request with its response. -/
def serveAll : List Potion → List Request → List (Request × Response) × List Potion
  | store, [] => ([], store)
  | store, r :: rs =>
    let out := serve store r
    let rest := serveAll out.2 rs
    ((r, out.1) :: rest.1, rest.2)

/-- The creates of a log that were answered 201. -/
def created (log : List (Request × Response)) : Nat :=
  log.countP (fun e =>
    match e.1 with
    | Request.post _ _ _ => e.2.status == 201
    | _ => false)

/-- The deletes of a log that were answered 200. -/
def deleted (log : List (Request × Response)) : Nat :=
  log.countP (fun e =>
    match e.1 with
    | Request.delete _ _ => e.2.status == 200
    | _ => false)

/-- The store holds no two documents with the same `_id` (the unique index the
store keeps on `_id`). -/
def UniqueIds (store : List Potion) : Prop := (store.map (fun p => p._id)).Nodup

/-- The empty body: no path given. -/
def emptyInput : PotionInput :=
  ⟨Field.absent, none, Field.absent, Field.absent, Field.absent, Field.absent, Field.absent⟩

/-- A body for examples: a complete potion. -/
def demoInput : PotionInput :=
  ⟨Field.value "Potion de soin", some ["Herbe magique"], Field.value ⟨Field.value 10, Field.value 5⟩,
    Field.value ["Soin"], Field.value 50, Field.absent, Field.value "642c1f1e1c4a4b001c8e4d1b"⟩

end Potions

/-! ## Validation chains: what they compute -/

namespace Auth

open ExpressValidator

theorem runChain_registerName (param v : String) :
    runChain param registerNameChain v =
      (v, pairEntries param v 3 (some 30) "Le nom d’utilisateur est requis."
        "Doit faire entre 3 et 30 caractères.") := by
  simp only [registerNameChain, runChain, pairEntries]
  by_cases h1 : Validator.isEmpty v = true <;>
    by_cases h2 : Validator.isLength v 3 (some 30) = true <;> simp [h1, h2]

theorem runChain_loginName (param v : String) :
    runChain param loginNameChain v =
      (Validator.escape (Validator.trim v),
        pairEntries param (Validator.escape (Validator.trim v)) 3 (some 30)
          "Le nom d’utilisateur est requis." "Doit faire entre 3 et 30 caractères.") := by
  simp only [loginNameChain, runChain, pairEntries]
  by_cases h1 : Validator.isEmpty (Validator.escape (Validator.trim v)) = true <;>
    by_cases h2 : Validator.isLength (Validator.escape (Validator.trim v)) 3 (some 30) = true <;>
    simp [h1, h2]

theorem runChain_password (param v : String) :
    runChain param passwordChain v =
      (Validator.escape (Validator.trim v),
        pairEntries param (Validator.escape (Validator.trim v)) 6 none
          "Le mot de passe est requis." "Minimum 6 caractères.") := by
  simp only [passwordChain, runChain, pairEntries]
  by_cases h1 : Validator.isEmpty (Validator.escape (Validator.trim v)) = true <;>
    by_cases h2 : Validator.isLength (Validator.escape (Validator.trim v)) 6 none = true <;>
    simp [h1, h2]

theorem isLength_bounded (v : String) (min max : Nat) :
    Validator.isLength v min (some max) = true ↔
      min ≤ Validator.len v ∧ Validator.len v ≤ max := by
  simp [Validator.isLength]

theorem isLength_atLeast (v : String) (min : Nat) :
    Validator.isLength v min none = true ↔ min ≤ Validator.len v := by
  simp [Validator.isLength]

/-- The measured length never exceeds the number of code points. -/
theorem len_le_length (v : String) : Validator.len v ≤ v.length := by
  unfold Validator.len
  exact Nat.sub_le _ _

theorem isEmpty_iff (v : String) : Validator.isEmpty v = true ↔ v.length = 0 := by
  simp [Validator.isEmpty]

/-- A pair of validators yields no entry exactly when the length check holds,
provided the minimum is positive. -/
theorem pairEntries_eq_nil (param v : String) (min : Nat) (max : Option Nat)
    (m1 m2 : String) (hmin : 0 < min) :
    pairEntries param v min max m1 m2 = [] ↔ Validator.isLength v min max = true := by
  unfold pairEntries
  constructor
  · intro h
    by_cases h2 : Validator.isLength v min max = true
    · exact h2
    · simp [h2] at h
  · intro h
    have hle := len_le_length v
    have hne : Validator.isEmpty v = false := by
      cases max with
      | none =>
        have := (isLength_atLeast v min).1 h
        simp [Validator.isEmpty]; omega
      | some m =>
        have := (isLength_bounded v min m).1 h
        simp [Validator.isEmpty]; omega
    simp [h, hne]

theorem registerErrors_eq (body : Credentials) :
    registerErrors body =
      pairEntries "name" (toText body.name) 3 (some 30) "Le nom d’utilisateur est requis."
        "Doit faire entre 3 et 30 caractères." ++
      pairEntries "password" (Validator.escape (Validator.trim (toText body.password))) 6 none
        "Le mot de passe est requis." "Minimum 6 caractères." := by
  simp only [registerErrors, runChain_registerName, runChain_password]

theorem loginErrors_eq (body : Credentials) :
    loginErrors body =
      pairEntries "name" (Validator.escape (Validator.trim (toText body.name))) 3 (some 30)
        "Le nom d’utilisateur est requis." "Doit faire entre 3 et 30 caractères." ++
      pairEntries "password" (Validator.escape (Validator.trim (toText body.password))) 6 none
        "Le mot de passe est requis." "Minimum 6 caractères." := by
  simp only [loginErrors, runChain_loginName, runChain_password]

/-- The request passes the validation of `/register` exactly when the name, as
submitted, measures 3 to 30 and the password, trimmed and escaped, measures at
least 6. -/
theorem registerErrors_eq_nil (body : Credentials) :
    registerErrors body = [] ↔
      (3 ≤ Validator.len (toText body.name) ∧ Validator.len (toText body.name) ≤ 30) ∧
        6 ≤ Validator.len (Validator.escape (Validator.trim (toText body.password))) := by
  rw [registerErrors_eq, List.append_eq_nil, pairEntries_eq_nil _ _ _ _ _ _ (by decide),
    pairEntries_eq_nil _ _ _ _ _ _ (by decide), isLength_bounded, isLength_atLeast]

/-- The request passes the validation of `/login` exactly when the name and the
password, both trimmed and escaped, measure 3 to 30 and at least 6. -/
theorem loginErrors_eq_nil (body : Credentials) :
    loginErrors body = [] ↔
      (3 ≤ Validator.len (Validator.escape (Validator.trim (toText body.name))) ∧
        Validator.len (Validator.escape (Validator.trim (toText body.name))) ≤ 30) ∧
        6 ≤ Validator.len (Validator.escape (Validator.trim (toText body.password))) := by
  rw [loginErrors_eq, List.append_eq_nil, pairEntries_eq_nil _ _ _ _ _ _ (by decide),
    pairEntries_eq_nil _ _ _ _ _ _ (by decide), isLength_bounded, isLength_atLeast]

/-- A request that fails validation is answered 400 with the entries, whatever
the store and the environment, and the store is left as it was. -/
theorem register_of_errors (H : Hasher) (fault : Option StoreError) (newId : Nat)
    (store : List User) (body : Credentials) (h : registerErrors body ≠ []) :
    register H fault newId store body =
      (⟨400, Body.errors (registerErrors body), [], []⟩, store) := by
  simp [register, h]

/-- A request that passes validation is answered from the outcome of the save,
called with the name as submitted and the sanitized password. -/
theorem register_of_valid (H : Hasher) (fault : Option StoreError) (newId : Nat)
    (store : List User) (body : Credentials) (h : registerErrors body = []) :
    register H fault newId store body =
      match User.save H fault newId store (toText body.name)
          (Validator.escape (Validator.trim (toText body.password))) with
      | Except.ok store1 => (⟨201, Body.message "Utilisateur créé", [], []⟩, store1)
      | Except.error err =>
        if err.code = some 11000 then (⟨500, Body.error "Erreur système", [], []⟩, store)
        else (⟨400, Body.error err.message, [], []⟩, store) := by
  simp only [register, h, runChain_registerName, runChain_password]
  rfl

theorem login_of_errors (H : Hasher) (env : LoginEnv) (store : List User) (body : Credentials)
    (h : loginErrors body ≠ []) :
    login H env store body = Outcome.responded ⟨400, Body.errors (loginErrors body), [], []⟩ := by
  simp [login, h]

theorem login_of_valid (H : Hasher) (env : LoginEnv) (store : List User) (body : Credentials)
    (h : loginErrors body = []) :
    login H env store body =
      match User.findOne env.findFault store
          (Validator.escape (Validator.trim (toText body.name))) with
      | Except.error e => Outcome.unhandled e
      | Except.ok none => Outcome.responded ⟨401, Body.error "Identifiants invalides", [], []⟩
      | Except.ok (some user) =>
        match User.comparePassword H env.compareFault user
            (Validator.escape (Validator.trim (toText body.password))) with
        | Except.error e => Outcome.unhandled e
        | Except.ok false =>
          Outcome.responded ⟨401, Body.error "Identifiants invalides", [], []⟩
        | Except.ok true =>
          Outcome.responded ⟨200, Body.message "Connecté avec succès",
            [⟨COOKIE_NAME, jwtSign user._id user.name (JWT_SECRET env.envSecret) "1d" env.now,
              true, "strict", false, 24 * 60 * 60 * 1000⟩], []⟩ := by
  simp only [login, h, runChain_loginName, runChain_password]
  rfl

/-- Looking a name up in a store extended by a user of that name, when no
earlier user has it, finds the new user. -/
theorem find_appended (store : List User) (u : User)
    (hfresh : ∀ w ∈ store, w.name ≠ u.name) :
    (store ++ [u]).find? (fun w => w.name == u.name) = some u := by
  induction store with
  | nil => simp
  | cons w ws ih =>
    have hw : w.name ≠ u.name := hfresh w (List.mem_cons_self _ _)
    have hrest : ∀ x ∈ ws, x.name ≠ u.name := fun x hx => hfresh x (List.mem_cons_of_mem _ hx)
    have hb : (w.name == u.name) = false := by simp [hw]
    rw [List.cons_append, List.find?_cons, hb]
    exact ih hrest

theorem ms_one_day : ms "1d" = some 86400000 := by decide

theorem pairEntries_location (param v : String) (min : Nat) (max : Option Nat)
    (m1 m2 : String) (e : FieldError) (he : e ∈ pairEntries param v min max m1 m2) :
    e.param = param ∧ e.location = "body" := by
  unfold pairEntries at he
  rcases List.mem_append.1 he with h | h
  · by_cases h1 : Validator.isEmpty v = true
    · simp [h1] at h; subst h; exact ⟨rfl, rfl⟩
    · simp [h1] at h
  · by_cases h2 : Validator.isLength v min max = true
    · simp [h2] at h
    · simp [h2] at h; subst h; exact ⟨rfl, rfl⟩

/-- A value that fails the length check yields an entry. -/
theorem pairEntries_exists (param v : String) (min : Nat) (max : Option Nat)
    (m1 m2 : String) (h : Validator.isLength v min max ≠ true) :
    ∃ e ∈ pairEntries param v min max m1 m2, e.param = param ∧ e.location = "body" := by
  refine ⟨⟨m2, param, "body"⟩, ?_, rfl, rfl⟩
  unfold pairEntries
  simp [h]

/-- The number of entries of one pair of validators. -/
theorem pairEntries_length (param v : String) (min : Nat) (max : Option Nat)
    (m1 m2 : String) :
    (pairEntries param v min max m1 m2).length =
      (if v.length = 0 then 1 else 0) + (if Validator.isLength v min max = true then 0 else 1) := by
  unfold pairEntries
  by_cases h1 : v.length = 0 <;> by_cases h2 : Validator.isLength v min max = true <;>
    simp [Validator.isEmpty, h1, h2]

/-- A login whose request passes validation and whose lookup rejects ends
without a response. -/
theorem login_unhandled_of_find_failure (H : Hasher) (env : LoginEnv) (store : List User)
    (body : Credentials) (e : StoreError) (hvalid : loginErrors body = [])
    (hfault : env.findFault = some e) : login H env store body = Outcome.unhandled e := by
  rw [login_of_valid _ _ _ _ hvalid]
  simp [User.findOne, hfault]

/-- A register request always ends in a response, whatever the save does. -/
theorem register_answers_failure (H : Hasher) (e : StoreError) (newId : Nat)
    (store : List User) (body : Credentials) :
    ∃ status b, register H (some e) newId store body = (⟨status, b, [], []⟩, store) ∧
      b ≠ Body.message "Utilisateur créé" := by
  by_cases h : registerErrors body = []
  · rw [register_of_valid _ _ _ _ _ h]
    simp only [User.save]
    by_cases hc : e.code = some 11000
    · exact ⟨500, Body.error "Erreur système", by simp [hc], by simp⟩
    · exact ⟨400, Body.error e.message, by simp [hc], by simp⟩
  · exact ⟨400, Body.errors (registerErrors body), register_of_errors _ _ _ _ _ h, by simp⟩

/-- For a name that trimming and escaping leave unchanged and that measures 3 to
30, a password that measures at least 6 once trimmed and escaped, and a store
holding neither that name nor the generated identifier, with store calls that
do not fail: register answers 201, and the login that follows with the same
name and password answers 200 and sets the session cookie. -/
theorem register_then_login_succeeds (H : Hasher) (hH : H.Sound) (env : LoginEnv) (newId : Nat)
    (store : List User) (name password : String)
    (hlen : 3 ≤ Validator.len name ∧ Validator.len name ≤ 30)
    (hname : Validator.escape (Validator.trim name) = name)
    (hpw : 6 ≤ Validator.len (Validator.escape (Validator.trim password)))
    (hfresh : ∀ u ∈ store, u.name ≠ name ∧ u._id ≠ newId)
    (hfind : env.findFault = none) (hcmp : env.compareFault = none) :
    (register H none newId store ⟨some name, some password⟩).1 =
        ⟨201, Body.message "Utilisateur créé", [], []⟩ ∧
      login H env (register H none newId store ⟨some name, some password⟩).2
          ⟨some name, some password⟩ =
        Outcome.responded ⟨200, Body.message "Connecté avec succès",
          [⟨COOKIE_NAME, jwtSign newId name (JWT_SECRET env.envSecret) "1d" env.now,
            true, "strict", false, 86400000⟩], []⟩ := by
  have hreg : registerErrors ⟨some name, some password⟩ = [] :=
    (registerErrors_eq_nil _).2 ⟨hlen, hpw⟩
  have hlog : loginErrors ⟨some name, some password⟩ = [] :=
    (loginErrors_eq_nil _).2 ⟨by simpa [toText, hname] using hlen, hpw⟩
  have hany : store.any (fun u => u.name == name || u._id == newId) = false := by
    rw [List.any_eq_false]
    intro u hu
    have := hfresh u hu
    simp [this.1, this.2]
  have hsave : register H none newId store ⟨some name, some password⟩ =
      (⟨201, Body.message "Utilisateur créé", [], []⟩,
        store ++ [⟨newId, name, H.hash (Validator.escape (Validator.trim password))⟩]) := by
    rw [register_of_valid _ _ _ _ _ hreg]
    simp [User.save, hany, toText]
  refine ⟨by rw [hsave], ?_⟩
  rw [hsave, login_of_valid _ _ _ _ hlog]
  have hfound := find_appended store
    ⟨newId, name, H.hash (Validator.escape (Validator.trim password))⟩
    (fun w hw => (hfresh w hw).1)
  simp only [toText, Option.getD_some, hname, User.findOne, hfind, hfound,
    User.comparePassword, hcmp, hH _]

/-- The length check leaves the variation selector out of its count: `ab`
followed by U+FE0F measures 2 and is refused as a name, and thirty `a` followed
by U+FE0F measure 30 and are accepted. -/
theorem isLength_skips_variation_selector :
    registerErrors ⟨some ("ab" ++ selector), some "secret1"⟩ =
      [⟨"Doit faire entre 3 et 30 caractères.", "name", "body"⟩] ∧
    registerErrors ⟨some (String.mk (List.replicate 30 (Char.ofNat 97)) ++ selector),
      some "secret1"⟩ = [] := by
  decide

end Auth

/-! ## Claims on the authentication routes -/

namespace Auth

open ExpressValidator

/-- C1 (failing input): the name `abc `, of four characters, registers with the
password `secret1` and is answered 201, and the login that follows with the
same name and password is answered 401; so does the name made of `O`, the single
quote and `Brien`. Register stores the name as submitted, login looks up the
trimmed and escaped name. -/
theorem register_then_login_fails :
    ((3 ≤ "abc ".length ∧ "abc ".length ≤ 30) ∧ 6 ≤ "secret1".length ∧
      (register demoHasher none 1 [] ⟨some "abc ", some "secret1"⟩).1 =
        ⟨201, Body.message "Utilisateur créé", [], []⟩ ∧
      login demoHasher ⟨none, none, none, 0⟩
          (register demoHasher none 1 [] ⟨some "abc ", some "secret1"⟩).2
          ⟨some "abc ", some "secret1"⟩ =
        Outcome.responded ⟨401, Body.error "Identifiants invalides", [], []⟩) ∧
    ((3 ≤ ("O" ++ quote ++ "Brien").length ∧ ("O" ++ quote ++ "Brien").length ≤ 30) ∧
      (register demoHasher none 1 [] ⟨some ("O" ++ quote ++ "Brien"), some "secret1"⟩).1 =
        ⟨201, Body.message "Utilisateur créé", [], []⟩ ∧
      login demoHasher ⟨none, none, none, 0⟩
          (register demoHasher none 1 [] ⟨some ("O" ++ quote ++ "Brien"), some "secret1"⟩).2
          ⟨some ("O" ++ quote ++ "Brien"), some "secret1"⟩ =
        Outcome.responded ⟨401, Body.error "Identifiants invalides", [], []⟩) := by
  decide

/-- C2: for a login request that passes validation, the run in which no user
has the name and the run in which the user exists but the password comparison
returns false give the same response: 401 with the body
`{ error: 'Identifiants invalides' }`, and no cookie. -/
theorem login_failures_indistinguishable (H : Hasher) (envA envB : LoginEnv)
    (storeA storeB : List User) (body : Credentials) (user : User)
    (hvalid : loginErrors body = [])
    (hA : User.findOne envA.findFault storeA
      (Validator.escape (Validator.trim (toText body.name))) = Except.ok none)
    (hB : User.findOne envB.findFault storeB
      (Validator.escape (Validator.trim (toText body.name))) = Except.ok (some user))
    (hcmp : User.comparePassword H envB.compareFault user
      (Validator.escape (Validator.trim (toText body.password))) = Except.ok false) :
    login H envA storeA body =
        Outcome.responded ⟨401, Body.error "Identifiants invalides", [], []⟩ ∧
      login H envB storeB body =
        Outcome.responded ⟨401, Body.error "Identifiants invalides", [], []⟩ := by
  constructor
  · rw [login_of_valid _ _ _ _ hvalid, hA]
  · rw [login_of_valid _ _ _ _ hvalid, hB]
    simp only [hcmp]

/-- C2 (witness): the name alice with the password secret1, on an empty store and
on a store where alice has another password. -/
theorem login_failures_indistinguishable_witness :
    login demoHasher ⟨none, none, none, 0⟩ [] ⟨some "alice", some "secret1"⟩ =
        Outcome.responded ⟨401, Body.error "Identifiants invalides", [], []⟩ ∧
      login demoHasher ⟨none, none, none, 0⟩ [⟨1, "alice", "hash:other99"⟩]
          ⟨some "alice", some "secret1"⟩ =
        Outcome.responded ⟨401, Body.error "Identifiants invalides", [], []⟩ :=
  login_failures_indistinguishable demoHasher ⟨none, none, none, 0⟩ ⟨none, none, none, 0⟩
    [] [⟨1, "alice", "hash:other99"⟩] ⟨some "alice", some "secret1"⟩ ⟨1, "alice", "hash:other99"⟩
    (by decide) rfl rfl rfl

/-- C3 (failing input): a register request that passes validation while the
save rejects on a lost connection is answered 400 with the message of the
failure, while a duplicate name is answered 500 with the generic message. -/
theorem register_write_failures_differ :
    registerErrors ⟨some "alice", some "secret1"⟩ = [] ∧
    User.save demoHasher (some ⟨none, "connection lost"⟩) 1 [] "alice" "secret1" =
      Except.error ⟨none, "connection lost"⟩ ∧
    (register demoHasher (some ⟨none, "connection lost"⟩) 1 []
        ⟨some "alice", some "secret1"⟩).1 =
      ⟨400, Body.error "connection lost", [], []⟩ ∧
    (register demoHasher none 2 [⟨1, "alice", "hash:secret1"⟩]
        ⟨some "alice", some "secret1"⟩).1 =
      ⟨500, Body.error "Erreur système", [], []⟩ :=
  ⟨by decide, rfl, by decide, by decide⟩

/-- C4 (failing input): the password made of the single quote alone has one
character, is escaped to a text of six, passes validation and is answered 201;
so is the password `<>ab`, of four characters. -/
theorem register_short_password_accepted :
    (quote.length = 1 ∧ (Validator.trim quote).length = 1 ∧
      Validator.escape (Validator.trim quote) = "&#x27;" ∧
      registerErrors ⟨some "alice", some quote⟩ = [] ∧
      (register demoHasher none 1 [] ⟨some "alice", some quote⟩).1 =
        ⟨201, Body.message "Utilisateur créé", [], []⟩) ∧
    ((Validator.trim "<>ab").length = 4 ∧
      registerErrors ⟨some "alice", some "<>ab"⟩ = [] ∧
      (register demoHasher none 1 [] ⟨some "alice", some "<>ab"⟩).1 =
        ⟨201, Body.message "Utilisateur créé", [], []⟩) := by
  decide

/-- C5: when the password, trimmed and escaped, measures less than 6 and the
name (as submitted for register, trimmed and escaped for login) does not
measure 3 to 30, by the length `isLength` measures, the response is 400 and its
`errors` array holds an entry for `name` and an entry for `password`, every
entry with location `body`; the response does not depend on the store or on the
outcome of any store call, and the store is left as it was. -/
theorem all_violations_reported (H : Hasher) (fault : Option StoreError) (newId : Nat)
    (env : LoginEnv) (store : List User) (body : Credentials)
    (hpw : Validator.len (Validator.escape (Validator.trim (toText body.password))) < 6) :
    (¬ (3 ≤ Validator.len (toText body.name) ∧ Validator.len (toText body.name) ≤ 30) →
      register H fault newId store body =
          (⟨400, Body.errors (registerErrors body), [], []⟩, store) ∧
        (∃ e ∈ registerErrors body, e.param = "name" ∧ e.location = "body") ∧
        (∃ e ∈ registerErrors body, e.param = "password" ∧ e.location = "body") ∧
        (∀ e ∈ registerErrors body, e.location = "body")) ∧
    (¬ (3 ≤ Validator.len (Validator.escape (Validator.trim (toText body.name))) ∧
          Validator.len (Validator.escape (Validator.trim (toText body.name))) ≤ 30) →
      login H env store body =
          Outcome.responded ⟨400, Body.errors (loginErrors body), [], []⟩ ∧
        (∃ e ∈ loginErrors body, e.param = "name" ∧ e.location = "body") ∧
        (∃ e ∈ loginErrors body, e.param = "password" ∧ e.location = "body") ∧
        (∀ e ∈ loginErrors body, e.location = "body")) := by
  have hp : Validator.isLength (Validator.escape (Validator.trim (toText body.password)))
      6 none ≠ true := by
    rw [Ne, isLength_atLeast]; omega
  constructor
  · intro hn
    have hnl : Validator.isLength (toText body.name) 3 (some 30) ≠ true := by
      rw [Ne, isLength_bounded]; exact hn
    have hne : registerErrors body ≠ [] := fun h0 => hn ((registerErrors_eq_nil body).1 h0).1
    refine ⟨register_of_errors _ _ _ _ _ hne, ?_, ?_, ?_⟩
    · obtain ⟨e, he, h1, h2⟩ := pairEntries_exists "name" _ 3 (some 30)
        "Le nom d’utilisateur est requis." "Doit faire entre 3 et 30 caractères." hnl
      exact ⟨e, by rw [registerErrors_eq]; exact List.mem_append_left _ he, h1, h2⟩
    · obtain ⟨e, he, h1, h2⟩ := pairEntries_exists "password" _ 6 none
        "Le mot de passe est requis." "Minimum 6 caractères." hp
      exact ⟨e, by rw [registerErrors_eq]; exact List.mem_append_right _ he, h1, h2⟩
    · intro e he
      rw [registerErrors_eq] at he
      rcases List.mem_append.1 he with h | h
      · exact (pairEntries_location _ _ _ _ _ _ e h).2
      · exact (pairEntries_location _ _ _ _ _ _ e h).2
  · intro hn
    have hnl : Validator.isLength (Validator.escape (Validator.trim (toText body.name)))
        3 (some 30) ≠ true := by
      rw [Ne, isLength_bounded]; exact hn
    have hne : loginErrors body ≠ [] := fun h0 => hn ((loginErrors_eq_nil body).1 h0).1
    refine ⟨login_of_errors _ _ _ _ hne, ?_, ?_, ?_⟩
    · obtain ⟨e, he, h1, h2⟩ := pairEntries_exists "name" _ 3 (some 30)
        "Le nom d’utilisateur est requis." "Doit faire entre 3 et 30 caractères." hnl
      exact ⟨e, by rw [loginErrors_eq]; exact List.mem_append_left _ he, h1, h2⟩
    · obtain ⟨e, he, h1, h2⟩ := pairEntries_exists "password" _ 6 none
        "Le mot de passe est requis." "Minimum 6 caractères." hp
      exact ⟨e, by rw [loginErrors_eq]; exact List.mem_append_right _ he, h1, h2⟩
    · intro e he
      rw [loginErrors_eq] at he
      rcases List.mem_append.1 he with h | h
      · exact (pairEntries_location _ _ _ _ _ _ e h).2
      · exact (pairEntries_location _ _ _ _ _ _ e h).2

/-- C5 (witness): the name `ab` with the password `123`, for register and for
login. -/
theorem all_violations_reported_witness :
    (register demoHasher none 1 [] ⟨some "ab", some "123"⟩ =
        (⟨400, Body.errors (registerErrors ⟨some "ab", some "123"⟩), [], []⟩, []) ∧
      (∃ e ∈ registerErrors ⟨some "ab", some "123"⟩, e.param = "name" ∧ e.location = "body") ∧
      (∃ e ∈ registerErrors ⟨some "ab", some "123"⟩,
        e.param = "password" ∧ e.location = "body") ∧
      (∀ e ∈ registerErrors ⟨some "ab", some "123"⟩, e.location = "body")) ∧
    (login demoHasher ⟨none, none, none, 0⟩ [] ⟨some "ab", some "123"⟩ =
        Outcome.responded ⟨400, Body.errors (loginErrors ⟨some "ab", some "123"⟩), [], []⟩ ∧
      (∃ e ∈ loginErrors ⟨some "ab", some "123"⟩, e.param = "name" ∧ e.location = "body") ∧
      (∃ e ∈ loginErrors ⟨some "ab", some "123"⟩, e.param = "password" ∧ e.location = "body") ∧
      (∀ e ∈ loginErrors ⟨some "ab", some "123"⟩, e.location = "body")) :=
  ⟨(all_violations_reported demoHasher none 1 ⟨none, none, none, 0⟩ []
      ⟨some "ab", some "123"⟩ (by decide)).1 (by decide),
    (all_violations_reported demoHasher none 1 ⟨none, none, none, 0⟩ []
      ⟨some "ab", some "123"⟩ (by decide)).2 (by decide)⟩

/-- C6 (as stated, refuted): an empty name with a valid password is one failing
field, and the `errors` array of the 400 response has two entries, both for
`name`. -/
theorem empty_field_yields_two_entries :
    failingFields "" (Validator.escape (Validator.trim "secret1")) = 1 ∧
    (register demoHasher none 1 [] ⟨some "", some "secret1"⟩).1 =
      ⟨400, Body.errors
        [⟨"Le nom d’utilisateur est requis.", "name", "body"⟩,
         ⟨"Doit faire entre 3 et 30 caractères.", "name", "body"⟩], [], []⟩ := by
  decide

/-- C6 (amended): the `errors` array of the 400 response of register and of
login has one entry per failing validator: its length is the number of failing
fields (by the length `isLength` measures) plus the number of empty fields, a
field with an empty value failing both `notEmpty` and `isLength` and a failing
field with a value failing `isLength` alone. -/
theorem errors_one_entry_per_failing_validator (H : Hasher) (fault : Option StoreError)
    (newId : Nat) (env : LoginEnv) (store : List User) (body : Credentials) :
    ((register H fault newId store body).1 = ⟨400, Body.errors (registerErrors body), [], []⟩ ∨
        registerErrors body = []) ∧
      (registerErrors body).length =
        failingFields (toText body.name)
            (Validator.escape (Validator.trim (toText body.password))) +
          emptyFields (toText body.name)
            (Validator.escape (Validator.trim (toText body.password))) ∧
    (login H env store body = Outcome.responded ⟨400, Body.errors (loginErrors body), [], []⟩ ∨
        loginErrors body = []) ∧
      (loginErrors body).length =
        failingFields (Validator.escape (Validator.trim (toText body.name)))
            (Validator.escape (Validator.trim (toText body.password))) +
          emptyFields (Validator.escape (Validator.trim (toText body.name)))
            (Validator.escape (Validator.trim (toText body.password))) := by
  refine ⟨?_, ?_, ?_, ?_⟩
  · by_cases h : registerErrors body = []
    · exact Or.inr h
    · exact Or.inl (by rw [register_of_errors _ _ _ _ _ h])
  · rw [registerErrors_eq, List.length_append, pairEntries_length, pairEntries_length]
    simp only [isLength_bounded, isLength_atLeast, failingFields, emptyFields]
    omega
  · by_cases h : loginErrors body = []
    · exact Or.inr h
    · exact Or.inl (login_of_errors _ _ _ _ h)
  · rw [loginErrors_eq, List.length_append, pairEntries_length, pairEntries_length]
    simp only [isLength_bounded, isLength_atLeast, failingFields, emptyFields]
    omega

/-- C7: for a login request that passes validation, whose user is found and
whose password comparison returns true, the response is 200 with the body
`{ message: 'Connecté avec succès' }` and exactly one cookie: it carries the
signed token, is `httpOnly`, has `sameSite` strict and a `maxAge` of
24 * 60 * 60 * 1000 = 86 400 000 ms, which is the lifetime of the token, 86 400 s
from its issue. -/
theorem login_success_sets_cookie (H : Hasher) (env : LoginEnv) (store : List User)
    (body : Credentials) (user : User)
    (hvalid : loginErrors body = [])
    (hfind : User.findOne env.findFault store
      (Validator.escape (Validator.trim (toText body.name))) = Except.ok (some user))
    (hcmp : User.comparePassword H env.compareFault user
      (Validator.escape (Validator.trim (toText body.password))) = Except.ok true) :
    login H env store body =
        Outcome.responded ⟨200, Body.message "Connecté avec succès",
          [⟨COOKIE_NAME, jwtSign user._id user.name (JWT_SECRET env.envSecret) "1d" env.now,
            true, "strict", false, 24 * 60 * 60 * 1000⟩], []⟩ ∧
      (jwtSign user._id user.name (JWT_SECRET env.envSecret) "1d" env.now).exp =
        some ((jwtSign user._id user.name (JWT_SECRET env.envSecret) "1d" env.now).iat + 86400) ∧
      24 * 60 * 60 * 1000 = 86400000 ∧ 86400000 = 86400 * 1000 := by
  refine ⟨?_, ?_, by norm_num, by norm_num⟩
  · rw [login_of_valid _ _ _ _ hvalid, hfind]
    simp only [hcmp]
  · simp [jwtSign, ms_one_day]

/-- C7 (witness): alice logs in with the password she registered. -/
theorem login_success_sets_cookie_witness :
    login demoHasher ⟨none, none, none, 1000⟩ [⟨1, "alice", "hash:secret1"⟩]
        ⟨some "alice", some "secret1"⟩ =
        Outcome.responded ⟨200, Body.message "Connecté avec succès",
          [⟨COOKIE_NAME, jwtSign 1 "alice" (JWT_SECRET none) "1d" 1000,
            true, "strict", false, 24 * 60 * 60 * 1000⟩], []⟩ ∧
      (jwtSign 1 "alice" (JWT_SECRET none) "1d" 1000).exp =
        some ((jwtSign 1 "alice" (JWT_SECRET none) "1d" 1000).iat + 86400) ∧
      24 * 60 * 60 * 1000 = 86400000 ∧ 86400000 = 86400 * 1000 :=
  login_success_sets_cookie demoHasher ⟨none, none, none, 1000⟩ [⟨1, "alice", "hash:secret1"⟩]
    ⟨some "alice", some "secret1"⟩ ⟨1, "alice", "hash:secret1"⟩ (by decide) rfl rfl

end Auth

/-! ## Potion store: what the calls do -/

namespace Potions

theorem find_eq_none_of_unknown (store : List Potion) (oid : ObjectId)
    (h : ∀ p ∈ store, p._id ≠ oid) : store.find? (fun q => q._id == oid) = none := by
  rw [List.find?_eq_none]
  intro p hp
  simpa using h p hp

/-- After the first document with an identifier is removed from a store with
unique identifiers, no document carries that identifier. -/
theorem find_eraseP_none (store : List Potion) (oid : ObjectId) (hu : UniqueIds store) :
    (store.eraseP (fun q => q._id == oid)).find? (fun q => q._id == oid) = none := by
  induction store with
  | nil => simp
  | cons q qs ih =>
    have hq : q._id ∉ qs.map (fun p => p._id) := (List.nodup_cons.1 hu).1
    have hqs : UniqueIds qs := (List.nodup_cons.1 hu).2
    by_cases hb : (q._id == oid) = true
    · simp only [List.eraseP_cons, hb, cond_true]
      apply find_eq_none_of_unknown
      intro p hp hpo
      apply hq
      have hqo : q._id = oid := by simpa using hb
      rw [hqo, ← hpo]
      exact List.mem_map_of_mem _ hp
    · simp only [Bool.not_eq_true] at hb
      simp only [List.eraseP_cons, hb, cond_false, List.find?_cons]
      exact ih hqs

/-- A response of the delete handler with its next store, by cases on the store
call. -/
theorem deletePotion_eq (fault : Option StoreError) (store : List Potion) (id : String) :
    deletePotion fault store id =
      match castObjectId id with
      | none => (⟨500, Body.error "Cast to ObjectId failed at path _id"⟩, store)
      | some oid =>
        match fault with
        | some e => (⟨500, Body.error e.message⟩, store)
        | none =>
          match store.find? (fun q => q._id == oid) with
          | none => (⟨404, Body.error "Potion non trouvée"⟩, store)
          | some _ =>
            (⟨200, Body.message "Potion supprimée avec succès"⟩,
              store.eraseP (fun q => q._id == oid)) := by
  unfold deletePotion Potion.findByIdAndDelete
  cases h1 : castObjectId id with
  | none => simp
  | some oid =>
    cases fault with
    | some e => simp
    | none =>
      cases h3 : store.find? (fun q => q._id == oid) with
      | none => simp [h3]
      | some p => simp [h3]

/-- A response of the update handler with its next store, by cases on the store
call. -/
theorem putPotion_eq (fault : Option StoreError) (store : List Potion) (id : String)
    (body : PotionInput) :
    putPotion fault store id body =
      match castObjectId id with
      | none => (⟨400, Body.error "Cast to ObjectId failed at path _id"⟩, store)
      | some oid =>
        match castUpdate body with
        | Except.error e => (⟨400, Body.error ("Validation failed: " ++ e)⟩, store)
        | Except.ok u =>
          match fault with
          | some e => (⟨400, Body.error e.message⟩, store)
          | none =>
            match store.find? (fun q => q._id == oid) with
            | none => (⟨404, Body.error "Potion non trouvée"⟩, store)
            | some p =>
              (⟨200, Body.messagePotion "Potion mise à jour avec succès" (applyUpdate u p)⟩,
                replaceFirst oid (applyUpdate u p) store) := by
  unfold putPotion Potion.findByIdAndUpdate
  cases h1 : castObjectId id with
  | none => simp
  | some oid =>
    cases h2 : castUpdate body with
    | error e => simp
    | ok u =>
      cases fault with
      | some e => simp
      | none =>
        cases h3 : store.find? (fun q => q._id == oid) with
        | none => simp [h3]
        | some p => simp [h3]

/-- A response of the create handler with its next store, by cases on the
save. -/
theorem postPotion_eq (fault : Option StoreError) (newId : ObjectId) (store : List Potion)
    (body : PotionInput) :
    postPotion fault newId store body =
      match validateNew newId body with
      | Except.error e => (⟨400, Body.error ("Potion validation failed: " ++ e)⟩, store)
      | Except.ok p =>
        match fault with
        | some e => (⟨400, Body.error e.message⟩, store)
        | none =>
          if store.any (fun q => q._id == newId) then
            (⟨400, Body.error "E11000 duplicate key error"⟩, store)
          else (⟨201, Body.messagePotion "Potion créée avec succès" p⟩, store ++ [p]) := by
  unfold postPotion Potion.save
  cases h1 : validateNew newId body with
  | error e => simp
  | ok p =>
    cases fault with
    | some e => simp
    | none =>
      by_cases h : store.any (fun q => q._id == newId) = true
      · simp [h]
      · simp [h]

theorem replaceFirst_length (oid : ObjectId) (p1 : Potion) (store : List Potion) :
    (replaceFirst oid p1 store).length = store.length := by
  induction store with
  | nil => rfl
  | cons q qs ih =>
    unfold replaceFirst
    by_cases h : (q._id == oid) = true
    · simp [h]
    · simp [h, ih]

/-- A create changes the number of documents by one when answered 201 and not
at all otherwise. -/
theorem postPotion_length (fault : Option StoreError) (newId : ObjectId) (store : List Potion)
    (body : PotionInput) :
    ((postPotion fault newId store body).1.status = 201 ∧
        (postPotion fault newId store body).2.length = store.length + 1) ∨
      ((postPotion fault newId store body).1.status = 400 ∧
        (postPotion fault newId store body).2 = store) := by
  rw [postPotion_eq]
  cases h1 : validateNew newId body with
  | error e => simp
  | ok p =>
    cases fault with
    | some e => simp
    | none =>
      by_cases h : store.any (fun q => q._id == newId) = true
      · simp [h]
      · simp [h]

/-- An update never changes the number of documents. -/
theorem putPotion_length (fault : Option StoreError) (store : List Potion) (id : String)
    (body : PotionInput) : (putPotion fault store id body).2.length = store.length := by
  rw [putPotion_eq]
  cases h1 : castObjectId id with
  | none => simp
  | some oid =>
    cases h2 : castUpdate body with
    | error e => simp
    | ok u =>
      cases fault with
      | some e => simp
      | none =>
        cases h3 : store.find? (fun q => q._id == oid) with
        | none => simp [h3]
        | some p => simpa [h3] using replaceFirst_length _ _ _

/-- A delete removes one document when answered 200 and none otherwise. -/
theorem deletePotion_length (fault : Option StoreError) (store : List Potion) (id : String) :
    ((deletePotion fault store id).1.status = 200 ∧
        (deletePotion fault store id).2.length + 1 = store.length) ∨
      ((deletePotion fault store id).1.status ≠ 200 ∧
        (deletePotion fault store id).2 = store) := by
  rw [deletePotion_eq]
  cases h1 : castObjectId id with
  | none => simp
  | some oid =>
    cases fault with
    | some e => simp
    | none =>
      cases hf : store.find? (fun q => q._id == oid) with
      | none => simp [hf]
      | some p =>
        have hmem : p ∈ store := List.mem_of_find?_eq_some hf
        have hp : (p._id == oid) = true := by
          have := List.find?_some hf
          simpa using this
        have hlen : (store.eraseP (fun q => q._id == oid)).length = store.length - 1 :=
          List.length_eraseP_of_mem hmem hp
        have hpos : 0 < store.length := List.length_pos_of_mem hmem
        simp only [hf, true_and, ne_eq, not_true_eq_false, false_and, or_false]
        omega

theorem created_cons (r : Request) (resp : Response) (log : List (Request × Response)) :
    created ((r, resp) :: log) =
      created log +
        (match r with
         | Request.post _ _ _ => if resp.status = 201 then 1 else 0
         | _ => 0) := by
  unfold created
  rw [List.countP_cons]
  cases r <;> simp

theorem deleted_cons (r : Request) (resp : Response) (log : List (Request × Response)) :
    deleted ((r, resp) :: log) =
      deleted log +
        (match r with
         | Request.delete _ _ => if resp.status = 200 then 1 else 0
         | _ => 0) := by
  unfold deleted
  rw [List.countP_cons]
  cases r <;> simp

/-- Along any run, the documents in the store and the deletes answered 200
balance the documents at the start and the creates answered 201. -/
theorem serveAll_balance (reqs : List Request) :
    ∀ store : List Potion,
      (serveAll store reqs).2.length + deleted (serveAll store reqs).1 =
        store.length + created (serveAll store reqs).1 := by
  induction reqs with
  | nil => intro store; simp [serveAll, created, deleted]
  | cons r rs ih =>
    intro store
    simp only [serveAll, created_cons, deleted_cons]
    have hrest := ih (serve store r).2
    cases r with
    | post fault newId body =>
      simp only [serve] at hrest ⊢
      rcases postPotion_length fault newId store body with ⟨h1, h2⟩ | ⟨h1, h2⟩
      · rw [h2] at hrest; simp only [h1]; simp; omega
      · rw [h2] at hrest ⊢; simp only [h1]; simp; omega
    | put fault id body =>
      simp only [serve] at hrest ⊢
      rw [putPotion_length] at hrest
      omega
    | delete fault id =>
      simp only [serve] at hrest ⊢
      rcases deletePotion_length fault store id with ⟨h1, h2⟩ | ⟨h1, h2⟩
      · simp only [h1]; simp; omega
      · rw [h2] at hrest ⊢; simp only [h1]; simp; omega

/-- A validated new document carries the generated identifier. -/
theorem validateNew_id (newId : ObjectId) (body : PotionInput) (p : Potion)
    (h : validateNew newId body = Except.ok p) : p._id = newId := by
  unfold validateNew at h
  simp only [bind, Except.bind, pure, Except.pure] at h
  repeat' split at h
  all_goals first
    | contradiction
    | (injection h with h; rw [← h])

theorem replaceFirst_ids (oid : ObjectId) (p1 : Potion) (store : List Potion)
    (h1 : p1._id = oid) :
    (replaceFirst oid p1 store).map (fun p => p._id) = store.map (fun p => p._id) := by
  induction store with
  | nil => rfl
  | cons q qs ih =>
    unfold replaceFirst
    by_cases h : (q._id == oid) = true
    · have hq : q._id = oid := by simpa using h
      simp [h, h1, hq]
    · simp [h, ih]

/-- Every request keeps the identifiers of the store unique. -/
theorem serve_uniqueIds (store : List Potion) (r : Request) (hu : UniqueIds store) :
    UniqueIds (serve store r).2 := by
  cases r with
  | post fault newId body =>
    simp only [serve]
    rw [postPotion_eq]
    cases h1 : validateNew newId body with
    | error e => simpa using hu
    | ok p =>
      cases fault with
      | some e => simpa using hu
      | none =>
        by_cases h : store.any (fun q => q._id == newId) = true
        · simpa [h] using hu
        · have hid := validateNew_id newId body p h1
          simp only [h]
          unfold UniqueIds at hu ⊢
          simp only [Bool.false_eq_true, if_false, List.map_append, List.map_cons, List.map_nil]
          rw [List.nodup_append]
          refine ⟨hu, List.nodup_singleton _, ?_⟩
          intro a ha hb
          simp only [List.mem_singleton] at hb
          simp only [List.any_eq_true, not_exists, not_and] at h
          obtain ⟨q, hq, hqa⟩ := List.mem_map.1 ha
          exact h q hq (by simp [hqa, hb, hid])
  | put fault id body =>
    simp only [serve]
    rw [putPotion_eq]
    cases h1 : castObjectId id with
    | none => simpa using hu
    | some oid =>
      cases h2 : castUpdate body with
      | error e => simpa using hu
      | ok u =>
        cases fault with
        | some e => simpa using hu
        | none =>
          cases h3 : store.find? (fun q => q._id == oid) with
          | none => simpa [h3] using hu
          | some p =>
            have hp : p._id = oid := by
              have := List.find?_some h3
              simpa using this
            simp only [h3]
            unfold UniqueIds at hu ⊢
            rw [replaceFirst_ids oid (applyUpdate u p) store (by simpa [applyUpdate] using hp)]
            exact hu
  | delete fault id =>
    simp only [serve]
    rw [deletePotion_eq]
    cases h1 : castObjectId id with
    | none => simpa using hu
    | some oid =>
      cases fault with
      | some e => simpa using hu
      | none =>
        cases h3 : store.find? (fun q => q._id == oid) with
        | none => simpa [h3] using hu
        | some p =>
          simp only [h3]
          unfold UniqueIds at hu ⊢
          exact List.Nodup.sublist ((List.eraseP_sublist store).map _) hu

/-- Every store reached from the empty store has unique identifiers. -/
theorem serveAll_uniqueIds (reqs : List Request) :
    ∀ store : List Potion, UniqueIds store → UniqueIds (serveAll store reqs).2 := by
  induction reqs with
  | nil => intro store hu; simpa [serveAll] using hu
  | cons r rs ih =>
    intro store hu
    simp only [serveAll]
    exact ih _ (serve_uniqueIds store r hu)

/-- Every potion route answers a failure of its store call from its `catch`:
with an error body, and the store left as it was. -/
theorem potion_routes_answer_failure (e : StoreError) (store : List Potion) (id : String)
    (newId : ObjectId) (body : PotionInput) (groups : List (GroupDoc Unit))
    (vendors : List (GroupDoc ObjectId)) :
    names (some e) store = ⟨500, Body.error e.message⟩ ∧
    allPotions (some e) store = ⟨500, Body.error e.message⟩ ∧
    (∃ msg, byVendor (some e) store id = ⟨500, Body.error msg⟩) ∧
    (∃ msg, postPotion (some e) newId store body = (⟨400, Body.error msg⟩, store)) ∧
    (∃ msg, putPotion (some e) store id body = (⟨400, Body.error msg⟩, store)) ∧
    (∃ msg, deletePotion (some e) store id = (⟨500, Body.error msg⟩, store)) ∧
    averageScore (some e) groups = ⟨500, Body.error e.message⟩ ∧
    totalPrice (some e) groups = ⟨500, Body.error e.message⟩ ∧
    totalPotions (some e) store = ⟨500, Body.error e.message⟩ ∧
    distinctCategories (some e) store = ⟨500, Body.error e.message⟩ ∧
    averageScoreByVendor (some e) vendors = ⟨500, Body.error e.message⟩ := by
  refine ⟨rfl, rfl, ?_, ?_, ?_, ?_, rfl, rfl, rfl, rfl, rfl⟩
  · unfold byVendor
    cases castObjectId id with
    | none => exact ⟨_, rfl⟩
    | some oid => exact ⟨_, rfl⟩
  · rw [postPotion_eq]
    cases validateNew newId body with
    | error m => exact ⟨_, rfl⟩
    | ok p => exact ⟨_, rfl⟩
  · rw [putPotion_eq]
    cases castObjectId id with
    | none => exact ⟨_, rfl⟩
    | some oid =>
      cases castUpdate body with
      | error m => exact ⟨_, rfl⟩
      | ok u => exact ⟨_, rfl⟩
  · rw [deletePotion_eq]
    cases castObjectId id with
    | none => exact ⟨_, rfl⟩
    | some oid => exact ⟨_, rfl⟩

/-- What the analytics routes do with the documents the aggregation returns: on
an empty list the average-score and total-price routes answer 500 from their
`catch`, on a non-empty list they answer 200 with the value of its first
document, and the by-vendor route answers 200 with the list as returned. -/
theorem analytics_routes_on_result (first : GroupDoc Unit) (rest : List (GroupDoc Unit))
    (vendors : List (GroupDoc ObjectId)) :
    averageScore none [] =
      ⟨500, Body.error "Cannot read properties of undefined (reading averageScore)"⟩ ∧
    totalPrice none [] =
      ⟨500, Body.error "Cannot read properties of undefined (reading totalPrice)"⟩ ∧
    averageScore none (first :: rest) = ⟨200, jsonNumber first.value⟩ ∧
    totalPrice none (first :: rest) = ⟨200, jsonNumber first.value⟩ ∧
    averageScoreByVendor none vendors = ⟨200, Body.scores vendors⟩ :=
  ⟨rfl, rfl, rfl, rfl, rfl⟩

/-- A body without `effets.strength` fails the validation of a new document. -/
theorem validateNew_without_strength (newId : ObjectId) (body : PotionInput)
    (h : ∀ e, body.effets = Field.value e → e.strength = Field.absent) :
    ∃ msg, validateNew newId body = Except.error msg := by
  unfold validateNew
  simp only [bind, Except.bind]
  cases hn : requiredText "nom" body.nom with
  | error m => exact ⟨_, rfl⟩
  | ok nom =>
    cases he : body.effets with
    | absent => exact ⟨_, rfl⟩
    | uncastable => exact ⟨_, rfl⟩
    | value e =>
      have hs := h e he
      simp only [hs, required]
      exact ⟨_, rfl⟩

end Potions

/-! ## Claims on the potion routes -/

namespace Potions

/-- C8 (as stated, refuted): on the empty store, where no identifier matches a
potion, an update addressed to the malformed identifier `abc` is answered 400,
and so is an update addressed to a well-formed identifier whose body gives a
price that is not a number, or an object `effets` with a strength and no
flavor. -/
theorem put_unknown_id_answers_400 :
    putPotion none [] "abc" emptyInput =
      (⟨400, Body.error "Cast to ObjectId failed at path _id"⟩, []) ∧
    putPotion none [] "642c1f1e1c4a4b001c8e4d1b"
        ⟨Field.absent, none, Field.absent, Field.absent, Field.uncastable, Field.absent,
          Field.absent⟩ =
      (⟨400, Body.error "Validation failed: Cast failed at path prix"⟩, []) ∧
    putPotion none [] "642c1f1e1c4a4b001c8e4d1b"
        ⟨Field.absent, none, Field.value ⟨Field.value 20, Field.absent⟩, Field.absent,
          Field.absent, Field.absent, Field.absent⟩ =
      (⟨400, Body.error "Validation failed: Path effets.flavor is required."⟩, []) := by
  decide

/-- C8 (amended): for every store, every identifier that matches no potion in it
and every body, the update leaves the store as it was; it is answered 404 with
`{ error: 'Potion non trouvée' }` when the identifier is a well-formed
`ObjectId`, the body passes the cast and the update validators and the store
call does not fail, and 400 with `{ error }` otherwise. -/
theorem put_unknown_id (fault : Option StoreError) (store : List Potion) (id : String)
    (body : PotionInput) (hno : ∀ p ∈ store, castObjectId id ≠ some p._id) :
    (putPotion fault store id body).2 = store ∧
    ((fault = none ∧ (∃ oid, castObjectId id = some oid) ∧
        (∃ u, castUpdate body = Except.ok u)) →
      (putPotion fault store id body).1 = ⟨404, Body.error "Potion non trouvée"⟩) ∧
    (¬ (fault = none ∧ (∃ oid, castObjectId id = some oid) ∧
        (∃ u, castUpdate body = Except.ok u)) →
      ∃ msg, (putPotion fault store id body).1 = ⟨400, Body.error msg⟩) := by
  rw [putPotion_eq]
  cases h1 : castObjectId id with
  | none => simp
  | some oid =>
    have hfind : store.find? (fun q => q._id == oid) = none := by
      apply find_eq_none_of_unknown
      intro p hp hpo
      exact hno p hp (by rw [h1, hpo])
    cases h2 : castUpdate body with
    | error e => simp
    | ok u =>
      cases fault with
      | some e => simp
      | none => simp [hfind]

/-- C8 (witness): an update of the price at an identifier absent from a store of
one potion. -/
theorem put_unknown_id_witness :
    (putPotion none [⟨7, "Potion de soin", [], ⟨10, 5⟩, [], 50, some 0, 9⟩]
        "642c1f1e1c4a4b001c8e4d1b"
        ⟨Field.absent, none, Field.absent, Field.absent, Field.value 60, Field.absent,
          Field.absent⟩).1 =
      ⟨404, Body.error "Potion non trouvée"⟩ :=
  (put_unknown_id none [⟨7, "Potion de soin", [], ⟨10, 5⟩, [], 50, some 0, 9⟩]
      "642c1f1e1c4a4b001c8e4d1b"
      ⟨Field.absent, none, Field.absent, Field.absent, Field.value 60, Field.absent,
        Field.absent⟩
      (by decide)).2.1 ⟨rfl, ⟨_, rfl⟩, ⟨_, rfl⟩⟩

/-- C9: for every store with unique identifiers that holds a potion with the
identifier the request names, two deletes in a row whose store calls do not
fail are answered 200 the first time and 404 with
`{ error: 'Potion non trouvée' }` the second time, and the second delete leaves
the store as the first left it. -/
theorem delete_twice (store : List Potion) (id : String) (i : ObjectId)
    (hid : castObjectId id = some i) (hmem : ∃ p ∈ store, p._id = i)
    (hu : UniqueIds store) :
    (deletePotion none store id).1 = ⟨200, Body.message "Potion supprimée avec succès"⟩ ∧
    deletePotion none (deletePotion none store id).2 id =
      (⟨404, Body.error "Potion non trouvée"⟩, (deletePotion none store id).2) := by
  obtain ⟨p, hp, hpi⟩ := hmem
  have hsome : ∃ q, store.find? (fun q => q._id == i) = some q := by
    cases hf : store.find? (fun q => q._id == i) with
    | some q => exact ⟨q, rfl⟩
    | none =>
      rw [List.find?_eq_none] at hf
      exact absurd (by simpa using hpi) (hf p hp)
  obtain ⟨q, hq⟩ := hsome
  have hfirst : deletePotion none store id =
      (⟨200, Body.message "Potion supprimée avec succès"⟩,
        store.eraseP (fun q => q._id == i)) := by
    rw [deletePotion_eq, hid]
    simp [hq]
  rw [hfirst]
  refine ⟨rfl, ?_⟩
  rw [deletePotion_eq, hid]
  simp [find_eraseP_none store i hu]

/-- C9 (witness): a store of two potions, the first deleted twice. -/
theorem delete_twice_witness :
    (deletePotion none
        [⟨31001840666999365971643092251, "Potion de soin", [], ⟨10, 5⟩, [], 50, some 0, 9⟩,
         ⟨8, "Potion de mana", [], ⟨15, 7⟩, [], 100, some 0, 9⟩]
        "642c1f1e1c4a4b001c8e4d1b").1 =
      ⟨200, Body.message "Potion supprimée avec succès"⟩ ∧
    deletePotion none
        (deletePotion none
          [⟨31001840666999365971643092251, "Potion de soin", [], ⟨10, 5⟩, [], 50, some 0, 9⟩,
           ⟨8, "Potion de mana", [], ⟨15, 7⟩, [], 100, some 0, 9⟩]
          "642c1f1e1c4a4b001c8e4d1b").2 "642c1f1e1c4a4b001c8e4d1b" =
      (⟨404, Body.error "Potion non trouvée"⟩,
        (deletePotion none
          [⟨31001840666999365971643092251, "Potion de soin", [], ⟨10, 5⟩, [], 50, some 0, 9⟩,
           ⟨8, "Potion de mana", [], ⟨15, 7⟩, [], 100, some 0, 9⟩]
          "642c1f1e1c4a4b001c8e4d1b").2) :=
  delete_twice _ "642c1f1e1c4a4b001c8e4d1b" 31001840666999365971643092251 (by decide)
    ⟨_, List.mem_cons_self _ _, rfl⟩ (by unfold UniqueIds; decide)

/-- C10: starting from the empty store, after any sequence of creates, updates
and deletes, of which N creates were answered 201 and M deletes were answered
200, M is at most N and the total-potions route answers N - M when its store
call does not fail; a create not answered 201 and a delete not answered 200
leave the store as it was. -/
theorem total_after_creates_and_deletes (reqs : List Request) :
    deleted (serveAll [] reqs).1 ≤ created (serveAll [] reqs).1 ∧
    totalPotions none (serveAll [] reqs).2 =
      ⟨200, Body.number
        ((created (serveAll [] reqs).1 - deleted (serveAll [] reqs).1 : ℕ) : ℚ)⟩ ∧
    (∀ (fault : Option StoreError) (newId : ObjectId) (store : List Potion)
        (body : PotionInput),
      (postPotion fault newId store body).1.status ≠ 201 →
        (postPotion fault newId store body).1.status = 400 ∧
        (postPotion fault newId store body).2 = store) ∧
    (∀ (fault : Option StoreError) (store : List Potion) (id : String),
      (deletePotion fault store id).1.status ≠ 200 →
        (deletePotion fault store id).2 = store) := by
  have hbal := serveAll_balance reqs []
  simp only [List.length_nil, Nat.zero_add] at hbal
  refine ⟨by omega, ?_, ?_, ?_⟩
  · have hlen : (serveAll [] reqs).2.length =
        created (serveAll [] reqs).1 - deleted (serveAll [] reqs).1 := by omega
    simp [totalPotions, Potion.countDocuments, hlen]
  · intro fault newId store body hne
    rcases postPotion_length fault newId store body with ⟨h1, _⟩ | ⟨h1, h2⟩
    · exact absurd h1 hne
    · exact ⟨h1, h2⟩
  · intro fault store id hne
    rcases deletePotion_length fault store id with ⟨h1, _⟩ | ⟨_, h2⟩
    · exact absurd h1 hne
    · exact h2

/-- C10 (witness): a create answered 201, a create refused for its duplicate
identifier, a delete answered 200 and a delete answered 404 leave no potion. -/
theorem total_after_creates_and_deletes_witness :
    created (serveAll []
      [Request.post none 7 demoInput, Request.post none 7 demoInput,
       Request.delete none "000000000000000000000007",
       Request.delete none "000000000000000000000007"]).1 = 1 ∧
    deleted (serveAll []
      [Request.post none 7 demoInput, Request.post none 7 demoInput,
       Request.delete none "000000000000000000000007",
       Request.delete none "000000000000000000000007"]).1 = 1 ∧
    totalPotions none (serveAll []
      [Request.post none 7 demoInput, Request.post none 7 demoInput,
       Request.delete none "000000000000000000000007",
       Request.delete none "000000000000000000000007"]).2 =
      ⟨200, Body.number
        ((created (serveAll []
            [Request.post none 7 demoInput, Request.post none 7 demoInput,
             Request.delete none "000000000000000000000007",
             Request.delete none "000000000000000000000007"]).1 -
          deleted (serveAll []
            [Request.post none 7 demoInput, Request.post none 7 demoInput,
             Request.delete none "000000000000000000000007",
             Request.delete none "000000000000000000000007"]).1 : ℕ) : ℚ)⟩ :=
  ⟨by decide, by decide,
    (total_after_creates_and_deletes
      [Request.post none 7 demoInput, Request.post none 7 demoInput,
       Request.delete none "000000000000000000000007",
       Request.delete none "000000000000000000000007"]).2.1⟩

end Potions

/-! ## Claims on creation and on store failures -/

namespace Potions

/-- C12: for every create whose body gives no `effets.strength` (the object
`effets` is absent, is not an object, or lacks `strength`), whatever the other
fields, the store and the environment, the document fails the validation
against the schema, the response is 400 with `{ error }`, and the store is left
as it was. -/
theorem post_without_strength_rejected (fault : Option StoreError) (newId : ObjectId)
    (store : List Potion) (body : PotionInput)
    (h : ∀ e, body.effets = Field.value e → e.strength = Field.absent) :
    ∃ msg, validateNew newId body = Except.error msg ∧
      postPotion fault newId store body =
        (⟨400, Body.error ("Potion validation failed: " ++ msg)⟩, store) := by
  obtain ⟨msg, hmsg⟩ := validateNew_without_strength newId body h
  refine ⟨msg, hmsg, ?_⟩
  rw [postPotion_eq, hmsg]

/-- C12 (witness): a complete body but for `effets.strength`, on a store of one
potion. -/
theorem post_without_strength_rejected_witness :
    ∃ msg,
      validateNew 8
          ⟨Field.value "Potion de mana", some [], Field.value ⟨Field.absent, Field.value 7⟩,
            Field.value [], Field.value 100, Field.absent,
            Field.value "642c1f1e1c4a4b001c8e4d1b"⟩ = Except.error msg ∧
      postPotion none 8 [demoPotion 1 100 2]
          ⟨Field.value "Potion de mana", some [], Field.value ⟨Field.absent, Field.value 7⟩,
            Field.value [], Field.value 100, Field.absent,
            Field.value "642c1f1e1c4a4b001c8e4d1b"⟩ =
        (⟨400, Body.error ("Potion validation failed: " ++ msg)⟩, [demoPotion 1 100 2]) :=
  post_without_strength_rejected none 8 [demoPotion 1 100 2]
    ⟨Field.value "Potion de mana", some [], Field.value ⟨Field.absent, Field.value 7⟩,
      Field.value [], Field.value 100, Field.absent, Field.value "642c1f1e1c4a4b001c8e4d1b"⟩
    (by intro e he; cases he; rfl)

end Potions

namespace Auth

/-- C13 (failing input): a login request that passes validation while
`User.findOne` rejects, or while `comparePassword` rejects for the user found,
ends in an unhandled rejection: the handler sends no response. -/
theorem login_store_failure_escapes :
    loginErrors ⟨some "alice", some "secret1"⟩ = [] ∧
    login demoHasher ⟨some ⟨none, "connection lost"⟩, none, none, 0⟩
        [⟨1, "alice", "hash:secret1"⟩] ⟨some "alice", some "secret1"⟩ =
      Outcome.unhandled ⟨none, "connection lost"⟩ ∧
    login demoHasher ⟨none, some ⟨none, "hash unreadable"⟩, none, 0⟩
        [⟨1, "alice", "hash:secret1"⟩] ⟨some "alice", some "secret1"⟩ =
      Outcome.unhandled ⟨none, "hash unreadable"⟩ := by
  decide

end Auth
